import Mathlib

/-
Verification of the factory-queue orchestration engine
(src/factory-queue.js) against its natural-language specification.

The engine is embedded shallowly as a state-transition system.  JavaScript
runs the callbacks of one engine invocation on a single thread, so every
synchronous cascade (a `tryFetch`/`tryProcess` call together with its
recursive self-invocations) is modelled as one Lean function, and every
asynchronous boundary (a fetch or process capability settling, a watchdog
interval tick) is modelled as one event of a step relation.  JS `false`
sentinels stored in numeric fields are modelled as `none`, and the
source's loose comparisons against such fields go through `jsTruthy` /
`optNum` (`ToNumber(false) = 0`).  Items are opaque and modelled as `Nat`;
error payloads are modelled as `String`.  Timestamps are `Nat`
milliseconds, so the outcome's `time` field is carried in milliseconds
where the source divides by 1000.0 for display.
-/

namespace FactoryQueue

/-- Fetch options record (source lines 40-47) with the documented
defaults: page size 50, starting cursor 0, no `maxLimit`, non-paged,
no forced total, no fetch delay. -/
structure FetchOptions where
  limit : Nat := 50
  offset : Nat := 0
  maxLimit : Option Nat := none
  paged : Bool := false
  total : Option Nat := none
  fetchTimeout : Nat := 0
  deriving Repr, DecidableEq

/-- Queue options record (source lines 49-56) with the documented
defaults: one concurrent fetch, one concurrent process, backlog soft
limit 1000, max runtime 15000 seconds, no process delay, `processed`
counter starting at 0. -/
structure QueueOptions where
  requestLimit : Nat := 1
  processingLimit : Nat := 1
  queueLimit : Nat := 1000
  maxRuntimeSeconds : Nat := 15000
  processTimeout : Nat := 0
  processed : Nat := 0
  deriving Repr, DecidableEq

/-- Progress message emitted after a successful process completion
(source line 148): `{ offset, queueSize, processed }`. -/
structure Notif where
  offset : Nat
  queueSize : Nat
  processed : Nat
  deriving Repr, DecidableEq

/-- Shared run state of one `fetchAndProcess` invocation: the mutable
variables of source lines 58-64 (`_queue`, `_timeStart`, `_timeEnd`,
`_requestsConcurrent`, `_processingConcurrent`, `_err`) together with the
two mutable option records, plus ghost fields recording the in-flight
asynchronous operations, the emitted progress messages, the number of
times the internal `fetch` wrapper was invoked, and whether the
completion-check interval has been cleared. -/
structure St where
  fetchOptions : FetchOptions
  queueOptions : QueueOptions
  queue : List Nat
  timeStart : Nat
  timeEnd : Option Nat
  requestsConcurrent : Nat
  processingConcurrent : Nat
  err : Option String
  isArraySource : Bool
  pendingFetches : List (Nat × Nat)
  pendingProcesses : List Nat
  notifications : List Notif
  fetchCalls : Nat
  intervalCleared : Bool
  deriving Repr, DecidableEq

/-- JS truthiness of a `false | number` field: `false` and `0` are
falsy, every other number is truthy. -/
def jsTruthy : Option Nat → Bool
  | none => false
  | some n => n != 0

/-- JS `ToNumber` of a `false | number` value (`ToNumber(false) = 0`),
as used by the source's arithmetic and loose comparisons on the
`total` and `maxLimit` fields. -/
def optNum : Option Nat → Nat
  | none => 0
  | some n => n

/-- Cursor bound of source line 114: `paged ? total + 1 : total`. -/
def pagedTarget (fo : FetchOptions) : Nat :=
  if fo.paged then optNum fo.total + 1 else optNum fo.total

/-- Entry guard shared by `tryFetch` (line 109) and `tryProcess`
(line 139): `_fetchOptions.total && _queueOptions.processed ==
_fetchOptions.total`; when it holds the scheduler assigns
`_timeEnd = Date.now()` and returns. -/
def completionGuard (s : St) : Bool :=
  jsTruthy s.fetchOptions.total && (s.queueOptions.processed == optNum s.fetchOptions.total)

/-- Result of one admission check of a scheduler: `halt` ends the
current recursive cascade in the given state, `issue` issued one
operation and the cascade re-checks. -/
inductive AdmitRes where
  | halt (s : St)
  | issue (s : St)
  deriving Repr, DecidableEq

/-- One admission check of the Fetch Scheduler, source lines 108-136:
the completion guard (109), then the error (111), concurrency (112),
projected-backlog (113), cursor-vs-total (114) and cursor-vs-maxLimit
(116) rejections; on admission `_requestsConcurrent` increments, the
internal `fetch` wrapper is invoked at the current limit and offset,
and the offset advances by 1 in paged mode or by `limit` otherwise
(line 134). -/
def tryFetchCheck (now : Nat) (s : St) : AdmitRes :=
  if completionGuard s then .halt { s with timeEnd := some now }
  else if s.err.isSome then .halt s
  else if s.queueOptions.requestLimit ≤ s.requestsConcurrent then .halt s
  else if s.queueOptions.queueLimit ≤ s.queue.length + s.fetchOptions.limit * (s.requestsConcurrent + 1) then .halt s
  else if jsTruthy s.fetchOptions.total ∧ pagedTarget s.fetchOptions ≤ s.fetchOptions.offset then .halt s
  else if jsTruthy s.fetchOptions.maxLimit ∧ optNum s.fetchOptions.maxLimit ≤ s.fetchOptions.offset then .halt s
  else .issue { s with
    requestsConcurrent := s.requestsConcurrent + 1,
    pendingFetches := s.pendingFetches ++ [(s.fetchOptions.limit, s.fetchOptions.offset)],
    fetchCalls := s.fetchCalls + 1,
    fetchOptions := { s.fetchOptions with
      offset := s.fetchOptions.offset + (if s.fetchOptions.paged then 1 else s.fetchOptions.limit) } }

/-- The self-triggering recursion of `tryFetch` (line 135), fuelled:
each admission strictly increases `_requestsConcurrent`, which is
bounded by `requestLimit`, so `requestLimit + 1` fuel always suffices. -/
def tryFetchGo (now : Nat) : Nat → St → St
  | 0, s => s
  | fuel + 1, s =>
    match tryFetchCheck now s with
    | .halt t => t
    | .issue t => tryFetchGo now fuel t

/-- One synchronous invocation of `tryFetch` including its recursive
self-calls. -/
def tryFetch (now : Nat) (s : St) : St :=
  tryFetchGo now (s.queueOptions.requestLimit + 1) s

/-- One admission check of the Process Scheduler, source lines 138-159:
the completion guard (139), then the error (141), empty-backlog (142)
and concurrency (143) rejections; on admission one item is shifted from
the backlog head and `_processingConcurrent` increments. -/
def tryProcessCheck (now : Nat) (s : St) : AdmitRes :=
  if completionGuard s then .halt { s with timeEnd := some now }
  else if s.err.isSome then .halt s
  else if s.queue.isEmpty then .halt s
  else if s.queueOptions.processingLimit ≤ s.processingConcurrent then .halt s
  else .issue { s with
    queue := s.queue.tail,
    processingConcurrent := s.processingConcurrent + 1,
    pendingProcesses := s.pendingProcesses ++ [s.queue.headI] }

/-- The self-triggering recursion of `tryProcess` (line 158), fuelled:
each admission strictly increases `_processingConcurrent`, which is
bounded by `processingLimit`, so `processingLimit + 1` fuel always
suffices. -/
def tryProcessGo (now : Nat) : Nat → St → St
  | 0, s => s
  | fuel + 1, s =>
    match tryProcessCheck now s with
    | .halt t => t
    | .issue t => tryProcessGo now fuel t

/-- One synchronous invocation of `tryProcess` including its recursive
self-calls. -/
def tryProcess (now : Nat) (s : St) : St :=
  tryProcessGo now (s.queueOptions.processingLimit + 1) s

/-- Response handling inside the internal `fetch` wrapper, source lines
164-177.  Line 165: if total is falsy, `maxLimit` truthy and the
reported total exceeds `maxLimit`, `total` is set to `maxLimit`.
Line 166: a zero reported total while total is falsy rejects the wrapper
with "Source is empty.".  Line 167: a falsy total is set from the
reported total.  Line 169: if `total` loosely differs from the reported
total, `total` is set to the reported total. -/
def handleFetchResp (respTotal : Nat) (fo : FetchOptions) : Except String FetchOptions :=
  let fo1 := if ¬ jsTruthy fo.total ∧ jsTruthy fo.maxLimit ∧ optNum fo.maxLimit < respTotal
    then { fo with total := fo.maxLimit } else fo
  if ¬ jsTruthy fo1.total ∧ respTotal = 0 then .error "Source is empty."
  else
    let fo2 := if ¬ jsTruthy fo1.total then { fo1 with total := some respTotal } else fo1
    let fo3 := if ¬ (optNum fo2.total = respTotal) then { fo2 with total := some respTotal } else fo2
    .ok fo3

/-- Synchronous tail of the fetch continuation, source lines 126-127:
after a settled fetch mutated the state, `tryProcess()` then
`tryFetch()` run. -/
def fetchCont (now : Nat) (s1 : St) : St :=
  tryFetch now (tryProcess now s1)

/-- Settlement of one in-flight fetch operation, combining the internal
`fetch` wrapper (lines 161-185) with the continuation attached in
`tryFetch` (lines 119-132).  If the fetch capability fails, the
rejection handler of lines 178-182 only assigns `_err`; the wrapper
deferred never settles, so the continuation (with its
`_requestsConcurrent--`) never runs.  If the response handler rejects
(empty source), the rejection handler of lines 128-131 assigns `_err`,
again without the decrement.  On success the continuation decrements
`_requestsConcurrent`, appends the returned items (if any) to the
backlog, then re-invokes `tryProcess` and `tryFetch`.  The artificial
`fetchTimeout` delay only postpones delivery and is absorbed into the
event ordering. -/
def fetchOpComplete (now idx : Nat) (res : Except String (Nat × List Nat)) (s : St) : St :=
  if idx < s.pendingFetches.length then
    let s0 := { s with pendingFetches := s.pendingFetches.eraseIdx idx }
    match res with
    | .error e => { s0 with err := some e }
    | .ok (respTotal, items) =>
      match handleFetchResp respTotal s0.fetchOptions with
      | .error e => { s0 with err := some e }
      | .ok fo3 =>
        fetchCont now { s0 with
          fetchOptions := fo3,
          requestsConcurrent := s0.requestsConcurrent - 1,
          queue := if items.isEmpty then s0.queue else s0.queue ++ items }
  else s

/-- Success path of the internal `process` wrapper, source lines
189-202: `_queueOptions.processed` increments (line 190) and then the
three completion checks run: line 195 (non-paged, `total == processed`,
a loose comparison), line 196 (paged, `total * limit == processed`),
line 197 (`maxLimit` truthy and `processed == maxLimit`); each
satisfied check assigns `_timeEnd = Date.now()`. -/
def processInner (now : Nat) (s : St) : St :=
  let s1 := { s with queueOptions := { s.queueOptions with processed := s.queueOptions.processed + 1 } }
  let s2 := if ¬ s1.fetchOptions.paged ∧ optNum s1.fetchOptions.total = s1.queueOptions.processed
    then { s1 with timeEnd := some now } else s1
  let s3 := if s2.fetchOptions.paged ∧ optNum s2.fetchOptions.total * s2.fetchOptions.limit = s2.queueOptions.processed
    then { s2 with timeEnd := some now } else s2
  if jsTruthy s3.fetchOptions.maxLimit ∧ s3.queueOptions.processed = optNum s3.fetchOptions.maxLimit
    then { s3 with timeEnd := some now } else s3

/-- Synchronous continuation attached in `tryProcess` (lines 146-151),
applied to the state left by the settled `process` wrapper:
`_processingConcurrent--`, the progress message, the recursive
`tryProcess()`, and the conditional `tryFetch()` re-arm of line 151. -/
def processCont (now : Nat) (s1 : St) : St :=
  let s2 := { s1 with
    processingConcurrent := s1.processingConcurrent - 1,
    notifications := s1.notifications ++
      [{ offset := s1.fetchOptions.offset, queueSize := s1.queue.length,
         processed := s1.queueOptions.processed }] }
  let s3 := tryProcess now s2
  if ¬ s3.isArraySource ∧ s3.requestsConcurrent < s3.queueOptions.requestLimit
      ∧ jsTruthy s3.fetchOptions.total ∧ s3.fetchOptions.offset < pagedTarget s3.fetchOptions
    then tryFetch now s3 else s3

/-- Settlement of one in-flight process operation, combining the
internal `process` wrapper (lines 187-210) with the continuation
attached in `tryProcess` (lines 145-156).  If the process capability
fails, the rejection handler of lines 203-207 only assigns `_err`; the
wrapper deferred never settles, so the continuation (with its
`_processingConcurrent--`) never runs.  On success the wrapper body
runs (`processInner`), then the continuation decrements
`_processingConcurrent`, emits a progress message, re-invokes
`tryProcess`, and re-arms `tryFetch` when the source is a function,
fetch concurrency budget is available, `total` is truthy and the cursor
has not reached the paged target (line 151). -/
def processOpComplete (now idx : Nat) (res : Except String Unit) (s : St) : St :=
  if idx < s.pendingProcesses.length then
    let s0 := { s with pendingProcesses := s.pendingProcesses.eraseIdx idx }
    match res with
    | .error e => { s0 with err := some e }
    | .ok _ => processCont now (processInner now s0)
  else s

/-- Settled outcome of a run, as produced by the completion-check
interval: the rejection record of line 96, the success record of line
99 (`{ status: "done", fetched, processed, time }`), or the timeout
rejection of line 103.  The `fetched` field carries `_fetchOptions.total`
(possibly still falsy), and elapsed time is kept in milliseconds. -/
inductive Outcome where
  | done (fetched : Option Nat) (processed : Nat) (timeMs : Nat)
  | failed (error : String) (fetched : Option Nat) (processed : Nat) (timeMs : Nat)
  | timeout
  deriving Repr, DecidableEq

/-- One tick of the completion-check interval, source lines 88-105:
with the interval still armed, a recorded error rejects the run, an
assigned `_timeEnd` resolves it with the done record, and an elapsed
time beyond `maxRuntimeSeconds * 1000` rejects it with a timeout; each
settlement clears the interval. -/
def completeCheck (now : Nat) (s : St) : Option Outcome × St :=
  if s.intervalCleared then (none, s)
  else
    match s.err with
    | some e =>
      (some (.failed e s.fetchOptions.total s.queueOptions.processed (now - s.timeStart)),
       { s with intervalCleared := true })
    | none =>
      match s.timeEnd with
      | some t =>
        (some (.done s.fetchOptions.total s.queueOptions.processed (t - s.timeStart)),
         { s with intervalCleared := true })
      | none =>
        if s.queueOptions.maxRuntimeSeconds * 1000 < now - s.timeStart
          then (some .timeout, { s with intervalCleared := true })
          else (none, s)

/-- Data source handed to `fetchAndProcess`: either a pre-materialized
array of items or a callable fetch capability. -/
inductive Source where
  | array (items : List Nat)
  | func
  deriving Repr, DecidableEq

/-- Result of invoking the engine: an empty-array source settles
immediately (lines 213-215), otherwise the run starts with the given
state. -/
inductive InitResult where
  | immediate (s : St)
  | running (s : St)
  deriving Repr, DecidableEq

/-- State carried by an `InitResult`. -/
def InitResult.state : InitResult → St
  | .immediate s => s
  | .running s => s

/-- Whether the engine settled at invocation time. -/
def InitResult.isImmediate : InitResult → Bool
  | .immediate _ => true
  | .running _ => false

/-- Fresh run state at invocation time (source lines 58-64). -/
def initSt (fo : FetchOptions) (qo : QueueOptions) (isArr : Bool) (start : Nat) : St :=
  { fetchOptions := fo, queueOptions := qo, queue := [], timeStart := start, timeEnd := none,
    requestsConcurrent := 0, processingConcurrent := 0, err := none, isArraySource := isArr,
    pendingFetches := [], pendingProcesses := [], notifications := [], fetchCalls := 0,
    intervalCleared := false }

/-- Array-mode start state: line 82 sets `total` to the array length and
line 217 makes the whole array the initial backlog. -/
def arrayInit (items : List Nat) (fo : FetchOptions) (qo : QueueOptions) (start : Nat) : St :=
  { initSt { fo with total := some items.length } qo true start with queue := items }

/-- Invocation of the engine, source lines 81-83 and 212-222: an array
source sets `total` from its length; an empty array resolves at once
and clears the completion interval before its first tick can run; a
non-empty array starts the Process Scheduler on the pre-filled backlog;
a function source starts the Fetch Scheduler. -/
def fetchAndProcess (src : Source) (fo : FetchOptions) (qo : QueueOptions) (start : Nat) : InitResult :=
  match src with
  | .array [] => .immediate { arrayInit [] fo qo start with intervalCleared := true }
  | .array items => .running (tryProcess start (arrayInit items fo qo start))
  | .func => .running (tryFetch start (initSt fo qo false start))

/-- Asynchronous events deliverable to a running state: settlement of an
in-flight fetch (by its index in the pending list, with the capability's
result), settlement of an in-flight process, or a watchdog tick. -/
inductive Ev where
  | fetchOp (idx : Nat) (res : Except String (Nat × List Nat))
  | procOp (idx : Nat) (res : Except String Unit)
  | tick

/-- Global small-step relation: each event runs its handler together
with the synchronous scheduler cascades the handler triggers. -/
def step (now : Nat) (ev : Ev) (s : St) : St :=
  match ev with
  | .fetchOp idx res => fetchOpComplete now idx res s
  | .procOp idx res => processOpComplete now idx res s
  | .tick => (completeCheck now s).2

/-- Run a concrete schedule of timestamped events. -/
def runTrace (s : St) (evs : List (Nat × Ev)) : St :=
  evs.foldl (fun t e => step e.1 e.2 t) s

/-- Deterministic array-mode schedule: complete the oldest in-flight
process operation (successfully) until none remain, with bounded fuel. -/
def drainArr (now : Nat) : Nat → St → St
  | 0, s => s
  | fuel + 1, s =>
    if s.pendingProcesses.isEmpty then s
    else drainArr now fuel (processOpComplete now 0 (.ok ()) s)

/-- Concrete paged-mode run: page size 5, paged cursor, default queue
options; one fetch settles with reported total 2 and two items, then
both items process successfully. -/
def pagedRunStart : St :=
  (fetchAndProcess .func { limit := 5, paged := true } {} 0).state

/-- Final state of the paged-mode run. -/
def pagedRunFinal : St :=
  runTrace pagedRunStart
    [(5, .fetchOp 0 (.ok (2, [1, 2]))), (6, .procOp 0 (.ok ())), (7, .procOp 0 (.ok ()))]

/-- Concrete run with two pipelined fetches (page size 5,
`requestLimit` 2): the first fetch reports total 1 and delivers the
single item, which processes at time 20; the second fetch is still in
flight at that point. -/
def twoFetchStart : St :=
  (fetchAndProcess .func { limit := 5 } { requestLimit := 2 } 0).state

/-- State of the pipelined run after the first item processed at
time 20. -/
def twoFetchMid : St :=
  runTrace twoFetchStart [(10, .fetchOp 0 (.ok (1, [1]))), (20, .procOp 0 (.ok ()))]

/-- State of the pipelined run after the leftover second fetch settles
at time 30. -/
def twoFetchFinal : St :=
  runTrace twoFetchMid [(30, .fetchOp 0 (.ok (1, [])))]

/-- Concrete array-mode run of two items with `processingLimit` 2, so
both process operations are in flight together. -/
def twoFailStart : St :=
  (fetchAndProcess (.array [1, 2]) {} { processingLimit := 2 } 0).state

/-- State after the first in-flight process operation fails. -/
def twoFailMid : St := runTrace twoFailStart [(5, .procOp 0 (.error "first failure"))]

/-- State after the second in-flight process operation also fails. -/
def twoFailFinal : St := runTrace twoFailMid [(6, .procOp 0 (.error "second failure"))]

/-- Concrete run (page size 2) in which a process failure is recorded
while a second fetch is still in flight. -/
def lateFetchStart : St :=
  (fetchAndProcess .func { limit := 2 } {} 0).state

/-- State after the first page arrived and the first item's process
operation failed: the error slot is occupied, one fetch in flight. -/
def lateFetchMid : St :=
  runTrace lateFetchStart [(5, .fetchOp 0 (.ok (4, [1, 2]))), (6, .procOp 0 (.error "boom"))]

/-- State after the in-flight fetch settles with two more items, the
error slot already being occupied. -/
def lateFetchFinal : St := runTrace lateFetchMid [(7, .fetchOp 0 (.ok (4, [3, 4])))]

/-- Concrete run with `requestLimit` 2 and `processingLimit` 2 in which
the first response reports total 10 with five items and the second
response shrinks the reported total to 3; the backlog then holds more
items than the current total and four of them process successfully. -/
def shrinkStart : St :=
  (fetchAndProcess .func { limit := 5 } { requestLimit := 2, processingLimit := 2 } 0).state

/-- Final state of the shrinking-total run. -/
def shrinkFinal : St :=
  runTrace shrinkStart
    [(1, .fetchOp 0 (.ok (10, [1, 2, 3, 4, 5]))), (2, .fetchOp 0 (.ok (3, []))),
     (3, .procOp 0 (.ok ())), (4, .procOp 0 (.ok ())), (5, .procOp 0 (.ok ())),
     (6, .procOp 0 (.ok ()))]

/-- Invariant of an array-mode run with default fetch options,
`processingLimit` `pl` and an `N`-item source, maintained between the
events of the drain schedule: no error, array source, total fixed at
`N`, non-paged, no `maxLimit`; the processed count, in-flight count and
backlog length partition the `N` items; the in-flight count matches the
pending list, stays within `pl`, and is saturated whenever backlog
remains; the Fetch Scheduler has never been invoked; and once all `N`
items are processed `_timeEnd` carries the drain timestamp. -/
def ArrInv (now pl N : Nat) (s : St) : Prop :=
  s.err = none ∧
  s.isArraySource = true ∧
  s.fetchOptions.total = some N ∧
  s.fetchOptions.paged = false ∧
  s.fetchOptions.maxLimit = none ∧
  s.queueOptions.processingLimit = pl ∧
  s.queueOptions.processed + s.processingConcurrent + s.queue.length = N ∧
  s.processingConcurrent = s.pendingProcesses.length ∧
  s.processingConcurrent ≤ pl ∧
  (s.queue = [] ∨ s.processingConcurrent = pl) ∧
  s.fetchCalls = 0 ∧
  s.pendingFetches = [] ∧
  s.requestsConcurrent = 0 ∧
  s.intervalCleared = false ∧
  s.timeStart = now ∧
  (s.queueOptions.processed = N → s.timeEnd = some now)

/-- Concrete state with an assigned `_timeEnd`, used to exercise the
success branch of the completion check. -/
def doneSt : St :=
  { initSt { total := some 2 } { processed := 2 } false 0 with timeEnd := some 7 }

/-- State of the shrinking-total run after both fetches settled: the
backlog holds five items, two process operations are in flight, and the
current total is 3. -/
def shrinkMid : St :=
  runTrace shrinkStart
    [(1, .fetchOp 0 (.ok (10, [1, 2, 3, 4, 5]))), (2, .fetchOp 0 (.ok (3, [])))]

/-- State produced by the first admission of the Fetch Scheduler from a
fresh default-option function-mode state. -/
def c2AdmitSt : St :=
  { initSt { offset := 50 } {} false 0 with
    requestsConcurrent := 1, pendingFetches := [(50, 0)], fetchCalls := 1 }

/-- Concrete state with one in-flight fetch and one in-flight process
operation. -/
def c10St : St :=
  { initSt {} {} false 0 with
    pendingFetches := [(50, 0)], requestsConcurrent := 1,
    pendingProcesses := [7], processingConcurrent := 1 }

/-- Concrete run whose caller sets `maxLimit := 10` and whose first
response reports total 100: used to observe the final value of `total`
after the response is handled. -/
def maxRunStart : St :=
  (fetchAndProcess .func { maxLimit := some 10 } {} 0).state

/-- State of the `maxLimit` run after the first response settled. -/
def maxRunFinal : St := runTrace maxRunStart [(1, .fetchOp 0 (.ok (100, [1])))]

theorem tryFetchCheck_halt {now : Nat} {s t : St} (h : tryFetchCheck now s = .halt t) :
    t = s ∨ t = { s with timeEnd := some now } := by
  unfold tryFetchCheck at h
  repeat' split at h
  all_goals simp only [AdmitRes.halt.injEq, reduceCtorEq] at h
  all_goals first
    | exact Or.inr h.symm
    | exact Or.inl h.symm

theorem tryFetchCheck_issue {now : Nat} {s t : St} (h : tryFetchCheck now s = .issue t) :
    completionGuard s = false ∧
    s.err = none ∧
    s.requestsConcurrent < s.queueOptions.requestLimit ∧
    s.queue.length + s.fetchOptions.limit * (s.requestsConcurrent + 1) < s.queueOptions.queueLimit ∧
    (jsTruthy s.fetchOptions.total = false ∨ s.fetchOptions.offset < pagedTarget s.fetchOptions) ∧
    (jsTruthy s.fetchOptions.maxLimit = false ∨ s.fetchOptions.offset < optNum s.fetchOptions.maxLimit) ∧
    t = { s with
      requestsConcurrent := s.requestsConcurrent + 1,
      pendingFetches := s.pendingFetches ++ [(s.fetchOptions.limit, s.fetchOptions.offset)],
      fetchCalls := s.fetchCalls + 1,
      fetchOptions := { s.fetchOptions with
        offset := s.fetchOptions.offset + (if s.fetchOptions.paged then 1 else s.fetchOptions.limit) } } := by
  unfold tryFetchCheck at h
  repeat' split at h
  all_goals simp only [AdmitRes.issue.injEq, reduceCtorEq] at h
  all_goals rename_i h1 h2 h3 h4 h5 h6 hp
  all_goals refine ⟨by simpa using h1, by simpa using h2, by omega, by omega, ?_, ?_, ?_⟩
  all_goals try
    first
    | (by_cases hb : jsTruthy s.fetchOptions.total
       · refine Or.inr ?_
         have hnle : ¬ pagedTarget s.fetchOptions ≤ s.fetchOptions.offset := fun hh => h5 ⟨hb, hh⟩
         omega
       · exact Or.inl (by simpa using hb))
  all_goals try
    first
    | (by_cases hb : jsTruthy s.fetchOptions.maxLimit
       · refine Or.inr ?_
         have hnle : ¬ optNum s.fetchOptions.maxLimit ≤ s.fetchOptions.offset := fun hh => h6 ⟨hb, hh⟩
         omega
       · exact Or.inl (by simpa using hb))
  all_goals first
    | rw [if_pos hp]
    | rw [if_neg hp]
  all_goals exact h.symm

theorem tryProcessCheck_halt {now : Nat} {s t : St} (h : tryProcessCheck now s = .halt t) :
    (t = s ∨ t = { s with timeEnd := some now }) ∧
    (completionGuard s = true ∨ s.err.isSome = true ∨ s.queue = [] ∨
      s.queueOptions.processingLimit ≤ s.processingConcurrent) := by
  unfold tryProcessCheck at h
  repeat' split at h
  all_goals simp only [AdmitRes.halt.injEq, reduceCtorEq] at h
  · exact ⟨Or.inr h.symm, Or.inl (by assumption)⟩
  · exact ⟨Or.inl h.symm, Or.inr (Or.inl (by assumption))⟩
  · rename_i h1 h2 h3
    exact ⟨Or.inl h.symm, Or.inr (Or.inr (Or.inl (by simpa [List.isEmpty_iff] using h3)))⟩
  · exact ⟨Or.inl h.symm, Or.inr (Or.inr (Or.inr (by assumption)))⟩

theorem tryProcessCheck_issue {now : Nat} {s t : St} (h : tryProcessCheck now s = .issue t) :
    completionGuard s = false ∧
    s.err = none ∧
    s.queue ≠ [] ∧
    s.processingConcurrent < s.queueOptions.processingLimit ∧
    t = { s with
      queue := s.queue.tail,
      processingConcurrent := s.processingConcurrent + 1,
      pendingProcesses := s.pendingProcesses ++ [s.queue.headI] } := by
  unfold tryProcessCheck at h
  repeat' split at h
  all_goals simp only [AdmitRes.issue.injEq, reduceCtorEq] at h
  rename_i h1 h2 h3 h4
  exact ⟨by simpa using h1, by simpa using h2, by simpa [List.isEmpty_iff] using h3,
    by omega, h.symm⟩

theorem tryFetchGo_pres (now : Nat) : ∀ (fuel : Nat) (s : St),
    (tryFetchGo now fuel s).queue = s.queue ∧
    (tryFetchGo now fuel s).queueOptions = s.queueOptions ∧
    (tryFetchGo now fuel s).processingConcurrent = s.processingConcurrent ∧
    (tryFetchGo now fuel s).pendingProcesses = s.pendingProcesses ∧
    (tryFetchGo now fuel s).notifications = s.notifications ∧
    (tryFetchGo now fuel s).err = s.err ∧
    (tryFetchGo now fuel s).isArraySource = s.isArraySource ∧
    (tryFetchGo now fuel s).timeStart = s.timeStart ∧
    (tryFetchGo now fuel s).intervalCleared = s.intervalCleared ∧
    (tryFetchGo now fuel s).fetchOptions.total = s.fetchOptions.total ∧
    (tryFetchGo now fuel s).fetchOptions.limit = s.fetchOptions.limit ∧
    (tryFetchGo now fuel s).fetchOptions.paged = s.fetchOptions.paged ∧
    (tryFetchGo now fuel s).fetchOptions.maxLimit = s.fetchOptions.maxLimit ∧
    ((tryFetchGo now fuel s).timeEnd = s.timeEnd ∨ (tryFetchGo now fuel s).timeEnd = some now)
  | 0, s => by simp [tryFetchGo]
  | fuel + 1, s => by
    rcases hc : tryFetchCheck now s with t | t
    · have hsh := tryFetchCheck_halt hc
      simp only [tryFetchGo, hc]
      rcases hsh with rfl | rfl <;> simp
    · have hsh := (tryFetchCheck_issue hc).2.2.2.2.2.2
      simp only [tryFetchGo, hc]
      subst hsh
      exact tryFetchGo_pres now fuel _

theorem tryProcessGo_pres (now : Nat) : ∀ (fuel : Nat) (s : St),
    (tryProcessGo now fuel s).queueOptions = s.queueOptions ∧
    (tryProcessGo now fuel s).fetchOptions = s.fetchOptions ∧
    (tryProcessGo now fuel s).err = s.err ∧
    (tryProcessGo now fuel s).isArraySource = s.isArraySource ∧
    (tryProcessGo now fuel s).requestsConcurrent = s.requestsConcurrent ∧
    (tryProcessGo now fuel s).pendingFetches = s.pendingFetches ∧
    (tryProcessGo now fuel s).fetchCalls = s.fetchCalls ∧
    (tryProcessGo now fuel s).notifications = s.notifications ∧
    (tryProcessGo now fuel s).timeStart = s.timeStart ∧
    (tryProcessGo now fuel s).intervalCleared = s.intervalCleared ∧
    (tryProcessGo now fuel s).processingConcurrent + (tryProcessGo now fuel s).queue.length
      = s.processingConcurrent + s.queue.length ∧
    (tryProcessGo now fuel s).processingConcurrent + s.pendingProcesses.length
      = s.processingConcurrent + (tryProcessGo now fuel s).pendingProcesses.length ∧
    (s.processingConcurrent ≤ s.queueOptions.processingLimit →
      (tryProcessGo now fuel s).processingConcurrent ≤ s.queueOptions.processingLimit) ∧
    ((tryProcessGo now fuel s).timeEnd = s.timeEnd ∨ (tryProcessGo now fuel s).timeEnd = some now)
  | 0, s => by simp [tryProcessGo]
  | fuel + 1, s => by
    rcases hc : tryProcessCheck now s with t | t
    · have hsh := (tryProcessCheck_halt hc).1
      simp only [tryProcessGo, hc]
      rcases hsh with rfl | rfl <;> simp
    · obtain ⟨-, -, hq, hlt, hsh⟩ := tryProcessCheck_issue hc
      simp only [tryProcessGo, hc]
      subst hsh
      have hlen : 0 < s.queue.length := List.length_pos.mpr hq
      obtain ⟨i1, i2, i3, i4, i5, i6, i7, i8, i9, i10, i11, i12, i13, i14⟩ :=
        tryProcessGo_pres now fuel { s with
          queue := s.queue.tail,
          processingConcurrent := s.processingConcurrent + 1,
          pendingProcesses := s.pendingProcesses ++ [s.queue.headI] }
      refine ⟨i1, i2, i3, i4, i5, i6, i7, i8, i9, i10, ?_, ?_, ?_, i14⟩
      · simp only [List.length_tail] at i11
        omega
      · simp only [List.length_append, List.length_cons, List.length_nil] at i12
        omega
      · intro hb
        exact i13 (by simpa using hlt)

theorem tryProcessGo_halts (now : Nat) : ∀ (fuel : Nat) (s : St),
    s.queueOptions.processingLimit - s.processingConcurrent < fuel →
    (completionGuard (tryProcessGo now fuel s) = true ∨
     (tryProcessGo now fuel s).err.isSome = true ∨
     (tryProcessGo now fuel s).queue = [] ∨
     (tryProcessGo now fuel s).queueOptions.processingLimit
       ≤ (tryProcessGo now fuel s).processingConcurrent)
  | 0, s => by
    intro hf
    exact absurd hf (by omega)
  | fuel + 1, s => by
    intro _
    rcases hc : tryProcessCheck now s with t | t
    · obtain ⟨hsh, hreason⟩ := tryProcessCheck_halt hc
      simp only [tryProcessGo, hc]
      rcases hsh with rfl | rfl
      · exact hreason
      · rcases hreason with h | h | h | h
        · exact Or.inl h
        · exact Or.inr (Or.inl h)
        · exact Or.inr (Or.inr (Or.inl h))
        · exact Or.inr (Or.inr (Or.inr h))
    · obtain ⟨-, -, hq, hlt, hsh⟩ := tryProcessCheck_issue hc
      simp only [tryProcessGo, hc]
      subst hsh
      exact tryProcessGo_halts now fuel _ (by simp; omega)

theorem tryProcess_halts (now : Nat) (s : St) :
    completionGuard (tryProcess now s) = true ∨
    (tryProcess now s).err.isSome = true ∨
    (tryProcess now s).queue = [] ∨
    (tryProcess now s).queueOptions.processingLimit ≤ (tryProcess now s).processingConcurrent :=
  tryProcessGo_halts now (s.queueOptions.processingLimit + 1) s (by omega)

theorem tryFetch_err {now : Nat} {s : St} (h : s.err.isSome = true) :
    tryFetch now s = s ∨ tryFetch now s = { s with timeEnd := some now } := by
  unfold tryFetch
  rcases hc : tryFetchCheck now s with t | t
  · have hsh := tryFetchCheck_halt hc
    simp only [tryFetchGo, hc]
    exact hsh
  · have he := (tryFetchCheck_issue hc).2.1
    rw [he] at h
    simp at h

theorem tryProcess_err {now : Nat} {s : St} (h : s.err.isSome = true) :
    tryProcess now s = s ∨ tryProcess now s = { s with timeEnd := some now } := by
  unfold tryProcess
  rcases hc : tryProcessCheck now s with t | t
  · have hsh := (tryProcessCheck_halt hc).1
    simp only [tryProcessGo, hc]
    exact hsh
  · have he := (tryProcessCheck_issue hc).2.1
    rw [he] at h
    simp at h

theorem processInner_spec (now : Nat) (s : St) :
    (processInner now s).queueOptions
      = { s.queueOptions with processed := s.queueOptions.processed + 1 } ∧
    (processInner now s).queue = s.queue ∧
    (processInner now s).fetchOptions = s.fetchOptions ∧
    (processInner now s).err = s.err ∧
    (processInner now s).processingConcurrent = s.processingConcurrent ∧
    (processInner now s).pendingProcesses = s.pendingProcesses ∧
    (processInner now s).pendingFetches = s.pendingFetches ∧
    (processInner now s).requestsConcurrent = s.requestsConcurrent ∧
    (processInner now s).notifications = s.notifications ∧
    (processInner now s).fetchCalls = s.fetchCalls ∧
    (processInner now s).isArraySource = s.isArraySource ∧
    (processInner now s).timeStart = s.timeStart ∧
    (processInner now s).intervalCleared = s.intervalCleared ∧
    (processInner now s).timeEnd =
      (if (¬ s.fetchOptions.paged = true ∧ optNum s.fetchOptions.total = s.queueOptions.processed + 1)
          ∨ (s.fetchOptions.paged = true
             ∧ optNum s.fetchOptions.total * s.fetchOptions.limit = s.queueOptions.processed + 1)
          ∨ (jsTruthy s.fetchOptions.maxLimit = true
             ∧ s.queueOptions.processed + 1 = optNum s.fetchOptions.maxLimit)
        then some now else s.timeEnd) := by
  unfold processInner
  dsimp only
  repeat' split
  all_goals refine ⟨rfl, rfl, rfl, rfl, rfl, rfl, rfl, rfl, rfl, rfl, rfl, rfl, rfl, ?_⟩
  all_goals dsimp only at *
  all_goals first
    | rfl
    | tauto

theorem completeCheck_state (now : Nat) (s : St) :
    (completeCheck now s).2 = s ∨ (completeCheck now s).2 = { s with intervalCleared := true } := by
  unfold completeCheck
  repeat' split
  all_goals simp

theorem fetchOpComplete_oob {now idx : Nat} {res : Except String (Nat × List Nat)} {s : St}
    (h : ¬ idx < s.pendingFetches.length) : fetchOpComplete now idx res s = s := by
  unfold fetchOpComplete
  rw [if_neg h]

theorem processOpComplete_oob {now idx : Nat} {res : Except String Unit} {s : St}
    (h : ¬ idx < s.pendingProcesses.length) : processOpComplete now idx res s = s := by
  unfold processOpComplete
  rw [if_neg h]

theorem fetchOpComplete_error_shape {now idx : Nat} {e : String} {s : St}
    (h : idx < s.pendingFetches.length) :
    fetchOpComplete now idx (.error e) s
      = { s with err := some e, pendingFetches := s.pendingFetches.eraseIdx idx } := by
  unfold fetchOpComplete
  rw [if_pos h]

theorem processOpComplete_error_shape {now idx : Nat} {e : String} {s : St}
    (h : idx < s.pendingProcesses.length) :
    processOpComplete now idx (.error e) s
      = { s with err := some e, pendingProcesses := s.pendingProcesses.eraseIdx idx } := by
  unfold processOpComplete
  rw [if_pos h]

theorem tryFetch_pres (now : Nat) (s : St) :
    (tryFetch now s).queue = s.queue ∧
    (tryFetch now s).queueOptions = s.queueOptions ∧
    (tryFetch now s).processingConcurrent = s.processingConcurrent ∧
    (tryFetch now s).pendingProcesses = s.pendingProcesses ∧
    (tryFetch now s).notifications = s.notifications ∧
    (tryFetch now s).err = s.err ∧
    (tryFetch now s).isArraySource = s.isArraySource ∧
    (tryFetch now s).timeStart = s.timeStart ∧
    (tryFetch now s).intervalCleared = s.intervalCleared ∧
    (tryFetch now s).fetchOptions.total = s.fetchOptions.total ∧
    (tryFetch now s).fetchOptions.limit = s.fetchOptions.limit ∧
    (tryFetch now s).fetchOptions.paged = s.fetchOptions.paged ∧
    (tryFetch now s).fetchOptions.maxLimit = s.fetchOptions.maxLimit ∧
    ((tryFetch now s).timeEnd = s.timeEnd ∨ (tryFetch now s).timeEnd = some now) :=
  tryFetchGo_pres now (s.queueOptions.requestLimit + 1) s

theorem tryProcess_pres (now : Nat) (s : St) :
    (tryProcess now s).queueOptions = s.queueOptions ∧
    (tryProcess now s).fetchOptions = s.fetchOptions ∧
    (tryProcess now s).err = s.err ∧
    (tryProcess now s).isArraySource = s.isArraySource ∧
    (tryProcess now s).requestsConcurrent = s.requestsConcurrent ∧
    (tryProcess now s).pendingFetches = s.pendingFetches ∧
    (tryProcess now s).fetchCalls = s.fetchCalls ∧
    (tryProcess now s).notifications = s.notifications ∧
    (tryProcess now s).timeStart = s.timeStart ∧
    (tryProcess now s).intervalCleared = s.intervalCleared ∧
    (tryProcess now s).processingConcurrent + (tryProcess now s).queue.length
      = s.processingConcurrent + s.queue.length ∧
    (tryProcess now s).processingConcurrent + s.pendingProcesses.length
      = s.processingConcurrent + (tryProcess now s).pendingProcesses.length ∧
    (s.processingConcurrent ≤ s.queueOptions.processingLimit →
      (tryProcess now s).processingConcurrent ≤ s.queueOptions.processingLimit) ∧
    ((tryProcess now s).timeEnd = s.timeEnd ∨ (tryProcess now s).timeEnd = some now) :=
  tryProcessGo_pres now (s.queueOptions.processingLimit + 1) s

theorem processCont_pres (now : Nat) (u : St) :
    (processCont now u).queueOptions.processed = u.queueOptions.processed ∧
    (processCont now u).notifications = u.notifications ++
      [{ offset := u.fetchOptions.offset, queueSize := u.queue.length,
         processed := u.queueOptions.processed }] ∧
    ((processCont now u).timeEnd = u.timeEnd ∨ (processCont now u).timeEnd = some now) ∧
    (processCont now u).timeStart = u.timeStart ∧
    (processCont now u).intervalCleared = u.intervalCleared ∧
    (processCont now u).isArraySource = u.isArraySource := by
  unfold processCont
  dsimp only
  split
  all_goals rename_i hguard
  · obtain ⟨p1, p2, p3, p4, p5, p6, p7, p8, p9, p10, p11, p12, p13, p14⟩ := tryProcess_pres now
      { u with
        processingConcurrent := u.processingConcurrent - 1,
        notifications := u.notifications ++
          [{ offset := u.fetchOptions.offset, queueSize := u.queue.length,
             processed := u.queueOptions.processed }] }
    obtain ⟨f1, f2, f3, f4, f5, f6, f7, f8, f9, f10, f11, f12, f13, f14⟩ := tryFetch_pres now
      (tryProcess now { u with
        processingConcurrent := u.processingConcurrent - 1,
        notifications := u.notifications ++
          [{ offset := u.fetchOptions.offset, queueSize := u.queue.length,
             processed := u.queueOptions.processed }] })
    refine ⟨?_, ?_, ?_, ?_, ?_, ?_⟩
    · rw [f2, p1]
    · rw [f5, p8]
    · rcases f14 with h | h
      · rw [h]
        rcases p14 with h2 | h2
        · exact Or.inl h2
        · exact Or.inr h2
      · exact Or.inr h
    · rw [f8, p9]
    · rw [f9, p10]
    · rw [f7, p4]
  · obtain ⟨p1, p2, p3, p4, p5, p6, p7, p8, p9, p10, p11, p12, p13, p14⟩ := tryProcess_pres now
      { u with
        processingConcurrent := u.processingConcurrent - 1,
        notifications := u.notifications ++
          [{ offset := u.fetchOptions.offset, queueSize := u.queue.length,
             processed := u.queueOptions.processed }] }
    exact ⟨by rw [p1], by rw [p8], p14, by rw [p9], by rw [p10], by rw [p4]⟩

theorem fetchCont_pres (now : Nat) (u : St) :
    (fetchCont now u).queueOptions.processed = u.queueOptions.processed ∧
    (fetchCont now u).notifications = u.notifications ∧
    ((fetchCont now u).timeEnd = u.timeEnd ∨ (fetchCont now u).timeEnd = some now) ∧
    (fetchCont now u).timeStart = u.timeStart ∧
    (fetchCont now u).intervalCleared = u.intervalCleared := by
  unfold fetchCont
  obtain ⟨p1, p2, p3, p4, p5, p6, p7, p8, p9, p10, p11, p12, p13, p14⟩ := tryProcess_pres now u
  obtain ⟨f1, f2, f3, f4, f5, f6, f7, f8, f9, f10, f11, f12, f13, f14⟩ :=
    tryFetch_pres now (tryProcess now u)
  refine ⟨by rw [f2, p1], by rw [f5, p8], ?_, by rw [f8, p9], by rw [f9, p10]⟩
  rcases f14 with h | h
  · rw [h]
    rcases p14 with h2 | h2
    · exact Or.inl h2
    · exact Or.inr h2
  · exact Or.inr h

theorem fetchOpComplete_pres (now idx : Nat) (res : Except String (Nat × List Nat)) (s : St) :
    ((fetchOpComplete now idx res s).timeEnd = s.timeEnd
      ∨ (fetchOpComplete now idx res s).timeEnd = some now) ∧
    (fetchOpComplete now idx res s).queueOptions.processed = s.queueOptions.processed ∧
    (fetchOpComplete now idx res s).notifications = s.notifications := by
  unfold fetchOpComplete
  split
  all_goals rename_i hidx
  case isFalse => exact ⟨Or.inl rfl, rfl, rfl⟩
  rcases res with e | ⟨rt, items⟩
  · exact ⟨Or.inl rfl, rfl, rfl⟩
  · dsimp only
    split
    · exact ⟨Or.inl rfl, rfl, rfl⟩
    · exact ⟨(fetchCont_pres now _).2.2.1, (fetchCont_pres now _).1, (fetchCont_pres now _).2.1⟩

theorem processOpComplete_ok (now idx : Nat) (s : St) (hidx : idx < s.pendingProcesses.length) :
    (processOpComplete now idx (.ok ()) s).queueOptions.processed = s.queueOptions.processed + 1 ∧
    (processOpComplete now idx (.ok ()) s).notifications = s.notifications ++
      [{ offset := s.fetchOptions.offset, queueSize := s.queue.length,
         processed := s.queueOptions.processed + 1 }] ∧
    ((processOpComplete now idx (.ok ()) s).timeEnd = s.timeEnd
      ∨ (processOpComplete now idx (.ok ()) s).timeEnd = some now) := by
  unfold processOpComplete
  rw [if_pos hidx]
  dsimp only
  obtain ⟨q1, q2, q3, q4, q5, q6, q7, q8, q9, q10, q11, q12, q13, q14⟩ :=
    processInner_spec now { s with pendingProcesses := s.pendingProcesses.eraseIdx idx }
  obtain ⟨c1, c2, c3, c4, c5, c6⟩ :=
    processCont_pres now (processInner now { s with pendingProcesses := s.pendingProcesses.eraseIdx idx })
  refine ⟨?_, ?_, ?_⟩
  · rw [c1, q1]
  · rw [c2, q9, q3, q2, q1]
  · rcases c3 with h | h
    · rw [h, q14]
      split
      · exact Or.inr rfl
      · exact Or.inl rfl
    · exact Or.inr h

theorem processOpComplete_pres (now idx : Nat) (res : Except String Unit) (s : St) :
    ((processOpComplete now idx res s).timeEnd = s.timeEnd
      ∨ (processOpComplete now idx res s).timeEnd = some now) := by
  unfold processOpComplete
  split
  all_goals rename_i hidx
  case isFalse => exact Or.inl rfl
  rcases res with e | u
  · exact Or.inl rfl
  · dsimp only
    obtain ⟨q1, q2, q3, q4, q5, q6, q7, q8, q9, q10, q11, q12, q13, q14⟩ :=
      processInner_spec now { s with pendingProcesses := s.pendingProcesses.eraseIdx idx }
    obtain ⟨c1, c2, c3, c4, c5, c6⟩ :=
      processCont_pres now (processInner now { s with pendingProcesses := s.pendingProcesses.eraseIdx idx })
    rcases c3 with h | h
    · rw [h, q14]
      split
      · exact Or.inr rfl
      · exact Or.inl rfl
    · exact Or.inr h

/-- Claim C2: in every state from which the Fetch Scheduler issues a new
fetch, at the moment of admission there is no recorded error,
`_requestsConcurrent` is strictly below `requestLimit`, the projected
backlog size `_queue.length + limit * (_requestsConcurrent + 1)` is
strictly below `queueLimit`, `total` is falsy or the cursor has not
reached `paged ? total + 1 : total`, and `maxLimit` is falsy or the
cursor has not reached `maxLimit`; in particular no fetch is admitted
while the projected backlog size reaches or exceeds `queueLimit`. -/
theorem C2_fetch_admission_policy (now : Nat) (s t : St)
    (h : tryFetchCheck now s = .issue t) :
    s.err = none ∧
    s.requestsConcurrent < s.queueOptions.requestLimit ∧
    s.queue.length + s.fetchOptions.limit * (s.requestsConcurrent + 1)
      < s.queueOptions.queueLimit ∧
    (jsTruthy s.fetchOptions.total = false
      ∨ s.fetchOptions.offset < pagedTarget s.fetchOptions) ∧
    (jsTruthy s.fetchOptions.maxLimit = false
      ∨ s.fetchOptions.offset < optNum s.fetchOptions.maxLimit) := by
  obtain ⟨-, h1, h2, h3, h4, h5, -⟩ := tryFetchCheck_issue h
  exact ⟨h1, h2, h3, h4, h5⟩

/-- Witness for C2 at the first admission of a fresh default-option
run. -/
theorem C2_fetch_admission_policy_witness :
    (initSt {} {} false 0).err = none ∧
    (initSt {} {} false 0).requestsConcurrent < (initSt {} {} false 0).queueOptions.requestLimit ∧
    (initSt {} {} false 0).queue.length
        + (initSt {} {} false 0).fetchOptions.limit * ((initSt {} {} false 0).requestsConcurrent + 1)
      < (initSt {} {} false 0).queueOptions.queueLimit ∧
    (jsTruthy (initSt {} {} false 0).fetchOptions.total = false
      ∨ (initSt {} {} false 0).fetchOptions.offset < pagedTarget (initSt {} {} false 0).fetchOptions) ∧
    (jsTruthy (initSt {} {} false 0).fetchOptions.maxLimit = false
      ∨ (initSt {} {} false 0).fetchOptions.offset < optNum (initSt {} {} false 0).fetchOptions.maxLimit) :=
  C2_fetch_admission_policy 0 (initSt {} {} false 0) c2AdmitSt (by decide)

/-- Claim C3 counterexample: a first response with reported total 100
arriving while `maxLimit = 10` and `total` is unknown leaves
`total = 100`, not `maxLimit`: the line-165 override is undone by the
line-169 total-tracking assignment, both at the response-handler level
and on the reachable run `maxRunFinal`. -/
theorem C3_counterexample :
    handleFetchResp 100 { maxLimit := some 10 }
      = .ok { limit := 50, offset := 0, maxLimit := some 10, paged := false,
              total := some 100, fetchTimeout := 0 } ∧
    ({ maxLimit := some 10 } : FetchOptions).total = none ∧
    maxRunFinal.fetchOptions.total = some 100 ∧
    maxRunFinal.fetchOptions.total ≠ some 10 := by
  refine ⟨rfl, rfl, by decide, by decide⟩

/-- Claim C3 (amended): when `total` is falsy, `maxLimit = some m` with
`0 < m < respTotal`, the handler transiently sets `total := maxLimit`
(line 165) but the total-tracking assignment of line 169 immediately
overwrites it with the reported total, so after the response is handled
`total` equals the reported total and differs from `maxLimit`. -/
theorem C3_maxLimit_override_overwritten (rt m : Nat) (fo : FetchOptions)
    (hm : fo.maxLimit = some m) (h0 : 0 < m)
    (ht : jsTruthy fo.total = false) (hlt : m < rt) :
    ∃ fo3, handleFetchResp rt fo = .ok fo3 ∧ fo3.total = some rt ∧ fo3.total ≠ fo.maxLimit := by
  have hml : jsTruthy fo.maxLimit = true := by
    rw [hm]
    simp only [jsTruthy, bne_iff_ne, ne_eq]
    omega
  unfold handleFetchResp
  dsimp only
  rw [if_pos (show ¬ jsTruthy fo.total = true ∧ jsTruthy fo.maxLimit = true
      ∧ optNum fo.maxLimit < rt from
    ⟨by simp [ht], hml, by rw [hm]; simpa [optNum] using hlt⟩)]
  rw [if_neg (show ¬ (¬ jsTruthy ({ fo with total := fo.maxLimit } : FetchOptions).total = true
      ∧ rt = 0) from by
    intro hcon
    exact hcon.1 (by simpa using hml))]
  rw [if_neg (show ¬ (¬ jsTruthy ({ fo with total := fo.maxLimit } : FetchOptions).total = true)
      from by simpa using hml)]
  rw [if_pos (show ¬ optNum ({ fo with total := fo.maxLimit } : FetchOptions).total = rt from by
    dsimp only
    rw [hm]
    simp only [optNum]
    omega)]
  refine ⟨_, rfl, rfl, ?_⟩
  rw [hm]
  dsimp only
  intro hcon
  have : rt = m := by simpa using hcon
  omega

/-- Witness for C3 at `maxLimit = 10`, reported total 100. -/
theorem C3_maxLimit_override_overwritten_witness :
    ∃ fo3, handleFetchResp 100 { maxLimit := some 10 } = .ok fo3 ∧
      fo3.total = some 100 ∧ fo3.total ≠ ({ maxLimit := some 10 } : FetchOptions).maxLimit :=
  C3_maxLimit_override_overwritten 100 10 { maxLimit := some 10 } rfl
    (by decide) (by decide) (by decide)

/-- Claim C10: when the fetch (or process) capability reports a failure,
the wrapper promise never settles: the handler only assigns `_err`, the
success continuation never runs, and the in-flight counter
`_requestsConcurrent` (resp. `_processingConcurrent`), incremented at
admission, is never decremented for that operation; no other observable
field changes. -/
theorem C10_capability_failure_never_settles (now idx : Nat) (e : String) (s : St) :
    (idx < s.pendingFetches.length →
      (fetchOpComplete now idx (.error e) s).requestsConcurrent = s.requestsConcurrent ∧
      (fetchOpComplete now idx (.error e) s).err = some e ∧
      (fetchOpComplete now idx (.error e) s).queue = s.queue ∧
      (fetchOpComplete now idx (.error e) s).queueOptions = s.queueOptions ∧
      (fetchOpComplete now idx (.error e) s).notifications = s.notifications ∧
      (fetchOpComplete now idx (.error e) s).timeEnd = s.timeEnd ∧
      (fetchOpComplete now idx (.error e) s).fetchOptions = s.fetchOptions ∧
      (fetchOpComplete now idx (.error e) s).fetchCalls = s.fetchCalls ∧
      (fetchOpComplete now idx (.error e) s).processingConcurrent = s.processingConcurrent) ∧
    (idx < s.pendingProcesses.length →
      (processOpComplete now idx (.error e) s).processingConcurrent = s.processingConcurrent ∧
      (processOpComplete now idx (.error e) s).err = some e ∧
      (processOpComplete now idx (.error e) s).queue = s.queue ∧
      (processOpComplete now idx (.error e) s).queueOptions = s.queueOptions ∧
      (processOpComplete now idx (.error e) s).notifications = s.notifications ∧
      (processOpComplete now idx (.error e) s).timeEnd = s.timeEnd ∧
      (processOpComplete now idx (.error e) s).fetchOptions = s.fetchOptions ∧
      (processOpComplete now idx (.error e) s).requestsConcurrent = s.requestsConcurrent) := by
  constructor <;> intro h
  · rw [fetchOpComplete_error_shape h]
    exact ⟨rfl, rfl, rfl, rfl, rfl, rfl, rfl, rfl, rfl⟩
  · rw [processOpComplete_error_shape h]
    exact ⟨rfl, rfl, rfl, rfl, rfl, rfl, rfl, rfl⟩

/-- Witness for C10 on a state with one in-flight fetch and one
in-flight process operation. -/
theorem C10_capability_failure_never_settles_witness :
    ((fetchOpComplete 3 0 (.error "fetch down") c10St).requestsConcurrent
        = c10St.requestsConcurrent ∧
      (fetchOpComplete 3 0 (.error "fetch down") c10St).err = some "fetch down" ∧
      (fetchOpComplete 3 0 (.error "fetch down") c10St).queue = c10St.queue ∧
      (fetchOpComplete 3 0 (.error "fetch down") c10St).queueOptions = c10St.queueOptions ∧
      (fetchOpComplete 3 0 (.error "fetch down") c10St).notifications = c10St.notifications ∧
      (fetchOpComplete 3 0 (.error "fetch down") c10St).timeEnd = c10St.timeEnd ∧
      (fetchOpComplete 3 0 (.error "fetch down") c10St).fetchOptions = c10St.fetchOptions ∧
      (fetchOpComplete 3 0 (.error "fetch down") c10St).fetchCalls = c10St.fetchCalls ∧
      (fetchOpComplete 3 0 (.error "fetch down") c10St).processingConcurrent
        = c10St.processingConcurrent) ∧
    ((processOpComplete 3 0 (.error "fetch down") c10St).processingConcurrent
        = c10St.processingConcurrent ∧
      (processOpComplete 3 0 (.error "fetch down") c10St).err = some "fetch down" ∧
      (processOpComplete 3 0 (.error "fetch down") c10St).queue = c10St.queue ∧
      (processOpComplete 3 0 (.error "fetch down") c10St).queueOptions = c10St.queueOptions ∧
      (processOpComplete 3 0 (.error "fetch down") c10St).notifications = c10St.notifications ∧
      (processOpComplete 3 0 (.error "fetch down") c10St).timeEnd = c10St.timeEnd ∧
      (processOpComplete 3 0 (.error "fetch down") c10St).fetchOptions = c10St.fetchOptions ∧
      (processOpComplete 3 0 (.error "fetch down") c10St).requestsConcurrent
        = c10St.requestsConcurrent) :=
  ⟨(C10_capability_failure_never_settles 3 0 "fetch down" c10St).1 (by decide),
   (C10_capability_failure_never_settles 3 0 "fetch down" c10St).2 (by decide)⟩

/-- Claim C4 counterexample: in the pipelined run, `_timeEnd` is
assigned 20 when the single item finishes processing, and is then
overwritten with 30 when the leftover in-flight fetch settles and the
scheduler entry guard re-fires at `processed == total`: `finishedAt`
is not write-once. -/
theorem C4_counterexample :
    twoFetchMid.timeEnd = some 20 ∧
    twoFetchFinal = runTrace twoFetchMid [(30, .fetchOp 0 (.ok (1, [])))] ∧
    twoFetchFinal.timeEnd = some 30 ∧
    twoFetchFinal.timeEnd ≠ twoFetchMid.timeEnd ∧
    twoFetchMid.err = none ∧ twoFetchFinal.err = none := by
  refine ⟨by decide, rfl, by decide, by decide, by decide, by decide⟩

/-- Claim C4 (amended): `_timeEnd` is never cleared — once it holds a
timestamp, every later step of the run leaves it holding some
timestamp — but it is not write-once: scheduler entries observing
`processed == total` reassign it the current time. -/
theorem C4_finishedAt_never_cleared (now : Nat) (ev : Ev) (s : St)
    (h : s.timeEnd.isSome = true) : (step now ev s).timeEnd.isSome = true := by
  cases ev with
  | fetchOp idx res =>
    show (fetchOpComplete now idx res s).timeEnd.isSome = true
    rcases (fetchOpComplete_pres now idx res s).1 with h2 | h2 <;> rw [h2]
    · exact h
    · rfl
  | procOp idx res =>
    show (processOpComplete now idx res s).timeEnd.isSome = true
    rcases processOpComplete_pres now idx res s with h2 | h2 <;> rw [h2]
    · exact h
    · rfl
  | tick =>
    show ((completeCheck now s).2).timeEnd.isSome = true
    rcases completeCheck_state now s with h2 | h2 <;> rw [h2]
    · exact h
    · exact h

/-- Witness for C4 on a state with `_timeEnd` already set. -/
theorem C4_finishedAt_never_cleared_witness :
    doneSt.timeEnd.isSome = true ∧ (step 9 .tick doneSt).timeEnd.isSome = true :=
  ⟨by decide, C4_finishedAt_never_cleared 9 .tick doneSt (by decide)⟩

/-- Claim C5 counterexample: with two process operations in flight, the
first failure is recorded and then the second failure overwrites it —
the error slot is last-error-wins, not first-error-wins. -/
theorem C5_counterexample :
    twoFailMid.err = some "first failure" ∧
    twoFailFinal = runTrace twoFailMid [(6, .procOp 0 (.error "second failure"))] ∧
    twoFailFinal.err = some "second failure" ∧
    twoFailFinal.err ≠ some "first failure" := by
  refine ⟨by decide, rfl, by decide, by decide⟩

/-- Claim C5 (amended): every settled fetch or process failure assigns
the error slot unconditionally, so the slot holds the most recently
recorded failure, regardless of whether an earlier failure was already
recorded. -/
theorem C5_last_error_wins (now idx : Nat) (e : String) (s : St) :
    (idx < s.pendingProcesses.length →
      (processOpComplete now idx (.error e) s).err = some e) ∧
    (idx < s.pendingFetches.length →
      (fetchOpComplete now idx (.error e) s).err = some e) := by
  constructor <;> intro h
  · rw [processOpComplete_error_shape h]
  · rw [fetchOpComplete_error_shape h]

/-- Witness for C5 on the state whose error slot already holds the
first failure. -/
theorem C5_last_error_wins_witness :
    twoFailMid.err = some "first failure" ∧
    (processOpComplete 6 0 (.error "second failure") twoFailMid).err = some "second failure" :=
  ⟨by decide, (C5_last_error_wins 6 0 "second failure" twoFailMid).1 (by decide)⟩

/-- Claim C6 counterexample: after a process failure is recorded, an
in-flight fetch settles and its items are still appended to the
backlog — the completion's result is not discarded, the observable
backlog content changes. -/
theorem C6_counterexample :
    lateFetchMid.err = some "boom" ∧
    lateFetchMid.queue = [2] ∧
    lateFetchFinal = runTrace lateFetchMid [(7, .fetchOp 0 (.ok (4, [3, 4])))] ∧
    lateFetchFinal.queue = [2, 3, 4] ∧
    lateFetchFinal.queue ≠ lateFetchMid.queue := by
  refine ⟨by decide, by decide, rfl, by decide, by decide⟩

/-- Claim C6 (amended): once the error slot is set neither scheduler
admits new work — `tryFetch` issues no fetch and `tryProcess` dequeues
no item — but the results of in-flight completions are not discarded: a
settling fetch still appends its items to the backlog, and a settling
process still increments `processedCount` and emits a progress
message. -/
theorem C6_error_stops_admission_not_mutation (now idx rt : Nat) (items : List Nat)
    (s : St) (fo3 : FetchOptions) :
    (s.err.isSome = true →
      (tryFetch now s).pendingFetches = s.pendingFetches ∧
      (tryFetch now s).fetchCalls = s.fetchCalls ∧
      (tryFetch now s).requestsConcurrent = s.requestsConcurrent ∧
      (tryFetch now s).queue = s.queue ∧
      (tryProcess now s).queue = s.queue ∧
      (tryProcess now s).pendingProcesses = s.pendingProcesses ∧
      (tryProcess now s).processingConcurrent = s.processingConcurrent ∧
      (tryProcess now s).queueOptions.processed = s.queueOptions.processed) ∧
    (s.err.isSome = true → idx < s.pendingFetches.length →
      handleFetchResp rt s.fetchOptions = .ok fo3 → items ≠ [] →
      (fetchOpComplete now idx (.ok (rt, items)) s).queue = s.queue ++ items) ∧
    (idx < s.pendingProcesses.length →
      (processOpComplete now idx (.ok ()) s).queueOptions.processed
          = s.queueOptions.processed + 1 ∧
      (processOpComplete now idx (.ok ()) s).notifications = s.notifications ++
        [{ offset := s.fetchOptions.offset, queueSize := s.queue.length,
           processed := s.queueOptions.processed + 1 }]) := by
  refine ⟨?_, ?_, ?_⟩
  · intro herr
    rcases @tryFetch_err now s herr with h | h <;>
      rcases @tryProcess_err now s herr with h2 | h2 <;>
        rw [h, h2] <;> exact ⟨rfl, rfl, rfl, rfl, rfl, rfl, rfl, rfl⟩
  · intro herr hidx hresp hit
    unfold fetchOpComplete
    rw [if_pos hidx]
    dsimp only
    split
    · rename_i e heq
      rw [hresp] at heq
      cases heq
    · rename_i fo3x heq
      unfold fetchCont
      have hx : ({ s with
          pendingFetches := s.pendingFetches.eraseIdx idx, fetchOptions := fo3x,
          requestsConcurrent := s.requestsConcurrent - 1,
          queue := if items.isEmpty then s.queue else s.queue ++ items } : St).err.isSome
          = true := herr
      rcases @tryProcess_err now _ hx with h2 | h2 <;> rw [h2] <;>
        rw [(tryFetch_pres now _).1] <;> dsimp only <;>
          rw [if_neg (by simpa [List.isEmpty_iff] using hit)]
  · intro hidx
    exact ⟨(processOpComplete_ok now idx s hidx).1, (processOpComplete_ok now idx s hidx).2.1⟩

/-- Witness for C6 on the reachable state `lateFetchMid`, whose error
slot is occupied while one fetch is in flight and whose backlog holds
one item. -/
theorem C6_error_stops_admission_not_mutation_witness :
    (fetchOpComplete 7 0 (.ok (4, [3, 4])) lateFetchMid).queue = lateFetchMid.queue ++ [3, 4] :=
  (C6_error_stops_admission_not_mutation 7 0 4 [3, 4] lateFetchMid
      { limit := 2, offset := 4, maxLimit := none, paged := false,
        total := some 4, fetchTimeout := 0 }).2.1
    (by decide) (by decide) (by rfl) (by decide)

/-- Claim C7 counterexample: a reachable run in which the reported total
shrinks from 10 to 3 while five items are already in the backlog, with
`processingLimit = 2`: four items complete processing, so
`processedCount = 4` exceeds the known `total = 3` (and no error is
recorded). -/
theorem C7_counterexample :
    shrinkFinal = runTrace shrinkMid
      [(3, .procOp 0 (.ok ())), (4, .procOp 0 (.ok ())), (5, .procOp 0 (.ok ())),
       (6, .procOp 0 (.ok ()))] ∧
    shrinkFinal.fetchOptions.total = some 3 ∧
    jsTruthy shrinkFinal.fetchOptions.total = true ∧
    shrinkFinal.queueOptions.processed = 4 ∧
    optNum shrinkFinal.fetchOptions.total < shrinkFinal.queueOptions.processed ∧
    shrinkFinal.err = none := by
  refine ⟨by decide, by decide, by decide, by decide, by decide, by decide⟩

/-- Claim C7 (amended): `processedCount` is monotone and changes by at
most one per event, increasing exactly on the settlement of an
in-flight process operation that succeeded; it is not bounded by
`total` — the unconditional increment of source line 190 lets it exceed
a shrunken or overshot total. -/
theorem C7_processed_monotone (now : Nat) (ev : Ev) (s : St) :
    (s.queueOptions.processed ≤ (step now ev s).queueOptions.processed ∧
     (step now ev s).queueOptions.processed ≤ s.queueOptions.processed + 1) ∧
    ((step now ev s).queueOptions.processed = s.queueOptions.processed + 1 →
      ∃ idx, ev = .procOp idx (.ok ()) ∧ idx < s.pendingProcesses.length) := by
  cases ev with
  | fetchOp idx res =>
    have h := (fetchOpComplete_pres now idx res s).2.1
    refine ⟨⟨?_, ?_⟩, ?_⟩
    · show s.queueOptions.processed ≤ (fetchOpComplete now idx res s).queueOptions.processed
      omega
    · show (fetchOpComplete now idx res s).queueOptions.processed ≤ s.queueOptions.processed + 1
      omega
    · intro hh
      have hh2 : (fetchOpComplete now idx res s).queueOptions.processed
          = s.queueOptions.processed + 1 := hh
      exact absurd hh2 (by rw [h]; omega)
  | procOp idx res =>
    rcases res with e | u
    · by_cases hidx : idx < s.pendingProcesses.length
      · have h : (processOpComplete now idx (.error e) s).queueOptions.processed
            = s.queueOptions.processed := by rw [processOpComplete_error_shape hidx]
        refine ⟨⟨?_, ?_⟩, ?_⟩
        · show s.queueOptions.processed
            ≤ (processOpComplete now idx (.error e) s).queueOptions.processed
          omega
        · show (processOpComplete now idx (.error e) s).queueOptions.processed
            ≤ s.queueOptions.processed + 1
          omega
        · intro hh
          have hh2 : (processOpComplete now idx (.error e) s).queueOptions.processed
              = s.queueOptions.processed + 1 := hh
          exact absurd hh2 (by rw [h]; omega)
      · have h : processOpComplete now idx (.error e) s = s := processOpComplete_oob hidx
        refine ⟨⟨?_, ?_⟩, ?_⟩
        · show s.queueOptions.processed
            ≤ (processOpComplete now idx (.error e) s).queueOptions.processed
          rw [h]
        · show (processOpComplete now idx (.error e) s).queueOptions.processed
            ≤ s.queueOptions.processed + 1
          rw [h]
          omega
        · intro hh
          have hh2 : (processOpComplete now idx (.error e) s).queueOptions.processed
              = s.queueOptions.processed + 1 := hh
          rw [h] at hh2
          exact absurd hh2 (by omega)
    · cases u
      by_cases hidx : idx < s.pendingProcesses.length
      · have h := (processOpComplete_ok now idx s hidx).1
        refine ⟨⟨?_, ?_⟩, fun _ => ⟨idx, rfl, hidx⟩⟩
        · show s.queueOptions.processed
            ≤ (processOpComplete now idx (.ok ()) s).queueOptions.processed
          omega
        · show (processOpComplete now idx (.ok ()) s).queueOptions.processed
            ≤ s.queueOptions.processed + 1
          omega
      · have h : processOpComplete now idx (.ok ()) s = s := processOpComplete_oob hidx
        refine ⟨⟨?_, ?_⟩, ?_⟩
        · show s.queueOptions.processed
            ≤ (processOpComplete now idx (.ok ()) s).queueOptions.processed
          rw [h]
        · show (processOpComplete now idx (.ok ()) s).queueOptions.processed
            ≤ s.queueOptions.processed + 1
          rw [h]
          omega
        · intro hh
          have hh2 : (processOpComplete now idx (.ok ()) s).queueOptions.processed
              = s.queueOptions.processed + 1 := hh
          rw [h] at hh2
          exact absurd hh2 (by omega)
  | tick =>
    have hp : ((completeCheck now s).2).queueOptions.processed = s.queueOptions.processed := by
      rcases completeCheck_state now s with h | h <;> rw [h]
    refine ⟨⟨?_, ?_⟩, ?_⟩
    · show s.queueOptions.processed ≤ ((completeCheck now s).2).queueOptions.processed
      omega
    · show ((completeCheck now s).2).queueOptions.processed ≤ s.queueOptions.processed + 1
      omega
    · intro hh
      have hh2 : ((completeCheck now s).2).queueOptions.processed
          = s.queueOptions.processed + 1 := hh
      exact absurd hh2 (by rw [hp]; omega)

/-- Witness for C7: a successful process settlement on the
shrinking-total run increments `processedCount` by exactly one. -/
theorem C7_processed_monotone_witness :
    ∃ idx, (Ev.procOp 0 (.ok ()) : Ev) = .procOp idx (.ok ())
      ∧ idx < shrinkMid.pendingProcesses.length :=
  (C7_processed_monotone 3 (.procOp 0 (.ok ())) shrinkMid).2 (by decide)

/-- Claim C1 counterexample: in the paged run (page size 5, reported
total 2) `_timeEnd` is recorded when `processedCount` reaches 2, via the
scheduler entry guard `processed == total`, although the claimed paged
target `total * pageSize = 10` is never reached and `maxLimit` is
unset: completion is not detected *exactly* at the claimed targets. -/
theorem C1_counterexample :
    pagedRunFinal = runTrace pagedRunStart
      [(5, .fetchOp 0 (.ok (2, [1, 2]))), (6, .procOp 0 (.ok ())), (7, .procOp 0 (.ok ()))] ∧
    pagedRunFinal.fetchOptions.paged = true ∧
    pagedRunFinal.fetchOptions.total = some 2 ∧
    pagedRunFinal.fetchOptions.limit = 5 ∧
    pagedRunFinal.fetchOptions.maxLimit = none ∧
    pagedRunFinal.queueOptions.processed = 2 ∧
    pagedRunFinal.timeEnd = some 7 ∧
    pagedRunFinal.queueOptions.processed
      ≠ optNum pagedRunFinal.fetchOptions.total * pagedRunFinal.fetchOptions.limit := by
  refine ⟨rfl, by decide, by decide, by decide, by decide, by decide, by decide, by decide⟩

/-- Claim C1 (amended): `_timeEnd` is recorded (i) by a successful
process completion exactly when the incremented `processedCount` equals
`total` (non-paged, loosely), `total * pageSize` (paged), or `maxLimit`
(when truthy), and (ii) by either scheduler's entry guard whenever
`processedCount` equals a truthy `total`, in any mode; when the
completion-check interval then observes `_timeEnd` with no recorded
error, the run settles successfully with
`{ status: "done", fetched: total, processed: processedCount, time }`. -/
theorem C1_completion_detection (now t : Nat) (s : St) :
    ((processInner now s).queueOptions.processed = s.queueOptions.processed + 1 ∧
     (processInner now s).timeEnd =
       (if (¬ s.fetchOptions.paged = true
            ∧ optNum s.fetchOptions.total = s.queueOptions.processed + 1)
           ∨ (s.fetchOptions.paged = true
              ∧ optNum s.fetchOptions.total * s.fetchOptions.limit
                  = s.queueOptions.processed + 1)
           ∨ (jsTruthy s.fetchOptions.maxLimit = true
              ∧ s.queueOptions.processed + 1 = optNum s.fetchOptions.maxLimit)
         then some now else s.timeEnd)) ∧
    (completionGuard s = true →
      tryProcessCheck now s = .halt { s with timeEnd := some now } ∧
      tryFetchCheck now s = .halt { s with timeEnd := some now }) ∧
    (s.intervalCleared = false → s.err = none → s.timeEnd = some t →
      (completeCheck now s).1
        = some (.done s.fetchOptions.total s.queueOptions.processed (t - s.timeStart))) := by
  refine ⟨⟨?_, ?_⟩, ?_, ?_⟩
  · rw [(processInner_spec now s).1]
  · exact (processInner_spec now s).2.2.2.2.2.2.2.2.2.2.2.2.2
  · intro hg
    constructor
    · unfold tryProcessCheck
      rw [if_pos hg]
    · unfold tryFetchCheck
      rw [if_pos hg]
  · intro hic herr hte
    unfold completeCheck
    rw [if_neg (by simp [hic])]
    simp only [herr, hte]

/-- Witness for C1 on a completed state: the completion check resolves
it with the done record. -/
theorem C1_completion_detection_witness :
    (completeCheck 9 doneSt).1 = some (.done (some 2) 2 7) :=
  (C1_completion_detection 9 7 doneSt).2.2 rfl rfl rfl

/-- Claim C8: invoking the engine with an empty array source resolves
immediately with zero processed items, emits no progress messages, and
clears the completion-check interval synchronously, so no watchdog tick
ever fires. -/
theorem C8_empty_array (fo : FetchOptions) (qo : QueueOptions) (start now2 : Nat)
    (hq : qo.processed = 0) :
    (fetchAndProcess (.array []) fo qo start).isImmediate = true ∧
    (fetchAndProcess (.array []) fo qo start).state.queueOptions.processed = 0 ∧
    (fetchAndProcess (.array []) fo qo start).state.notifications = [] ∧
    (fetchAndProcess (.array []) fo qo start).state.intervalCleared = true ∧
    (completeCheck now2 (fetchAndProcess (.array []) fo qo start).state).1 = none := by
  exact ⟨rfl, hq, rfl, rfl, rfl⟩

/-- Witness for C8 with default options. -/
theorem C8_empty_array_witness :
    (fetchAndProcess (.array []) {} {} 0).isImmediate = true ∧
    (fetchAndProcess (.array []) {} {} 0).state.queueOptions.processed = 0 ∧
    (fetchAndProcess (.array []) {} {} 0).state.notifications = [] ∧
    (fetchAndProcess (.array []) {} {} 0).state.intervalCleared = true ∧
    (completeCheck 99 (fetchAndProcess (.array []) {} {} 0).state).1 = none :=
  C8_empty_array {} {} 0 99 rfl

theorem processCont_spec (now : Nat) (u : St) (harr : u.isArraySource = true) :
    (processCont now u).queueOptions = u.queueOptions ∧
    (processCont now u).fetchOptions = u.fetchOptions ∧
    (processCont now u).err = u.err ∧
    (processCont now u).isArraySource = true ∧
    (processCont now u).requestsConcurrent = u.requestsConcurrent ∧
    (processCont now u).pendingFetches = u.pendingFetches ∧
    (processCont now u).fetchCalls = u.fetchCalls ∧
    (processCont now u).timeStart = u.timeStart ∧
    (processCont now u).intervalCleared = u.intervalCleared ∧
    (processCont now u).processingConcurrent + (processCont now u).queue.length
      = u.processingConcurrent - 1 + u.queue.length ∧
    (processCont now u).processingConcurrent + u.pendingProcesses.length
      = u.processingConcurrent - 1 + (processCont now u).pendingProcesses.length ∧
    (u.processingConcurrent - 1 ≤ u.queueOptions.processingLimit →
      (processCont now u).processingConcurrent ≤ u.queueOptions.processingLimit) ∧
    ((processCont now u).timeEnd = u.timeEnd ∨ (processCont now u).timeEnd = some now) ∧
    (completionGuard (processCont now u) = true
      ∨ (processCont now u).err.isSome = true
      ∨ (processCont now u).queue = []
      ∨ (processCont now u).queueOptions.processingLimit
          ≤ (processCont now u).processingConcurrent) := by
  have hsn : processCont now u = tryProcess now { u with
      processingConcurrent := u.processingConcurrent - 1,
      notifications := u.notifications ++
        [{ offset := u.fetchOptions.offset, queueSize := u.queue.length,
           processed := u.queueOptions.processed }] } := by
    unfold processCont
    dsimp only
    rw [if_neg ?hng]
    case hng =>
      intro hcon
      exact hcon.1 (by rw [(tryProcess_pres now _).2.2.2.1]; exact harr)
  rw [hsn]
  obtain ⟨p1, p2, p3, p4, p5, p6, p7, p8, p9, p10, p11, p12, p13, p14⟩ := tryProcess_pres now
    { u with
      processingConcurrent := u.processingConcurrent - 1,
      notifications := u.notifications ++
        [{ offset := u.fetchOptions.offset, queueSize := u.queue.length,
           processed := u.queueOptions.processed }] }
  have hh := tryProcess_halts now
    { u with
      processingConcurrent := u.processingConcurrent - 1,
      notifications := u.notifications ++
        [{ offset := u.fetchOptions.offset, queueSize := u.queue.length,
           processed := u.queueOptions.processed }] }
  exact ⟨by rw [p1], by rw [p2], by rw [p3], by rw [p4]; exact harr, by rw [p5], by rw [p6],
    by rw [p7], by rw [p9], by rw [p10], p11, p12, p13, p14, hh⟩

theorem arrInv_step {now pl N : Nat} {s : St} (inv : ArrInv now pl N s)
    (hpend : s.pendingProcesses ≠ []) :
    ArrInv now pl N (processOpComplete now 0 (.ok ()) s) ∧
    (processOpComplete now 0 (.ok ()) s).queueOptions.processed
      = s.queueOptions.processed + 1 := by
  obtain ⟨i1, i2, i3, i4, i5, i6, i7, i8, i9, i10, i11, i12, i13, i14, i15, i16⟩ := inv
  have hlen : 0 < s.pendingProcesses.length := List.length_pos.mpr hpend
  have hshape : processOpComplete now 0 (.ok ()) s
      = processCont now
          (processInner now { s with pendingProcesses := s.pendingProcesses.eraseIdx 0 }) := by
    unfold processOpComplete
    rw [if_pos hlen]
  rw [hshape]
  obtain ⟨q1, q2, q3, q4, q5, q6, q7, q8, q9, q10, q11, q12, q13, q14⟩ :=
    processInner_spec now { s with pendingProcesses := s.pendingProcesses.eraseIdx 0 }
  have harr1 : (processInner now
      { s with pendingProcesses := s.pendingProcesses.eraseIdx 0 }).isArraySource = true := by
    rw [q11]
    exact i2
  obtain ⟨c1, c2, c3, c4, c5, c6, c7, c8, c9, c10, c11, c12, c13, c14⟩ :=
    processCont_spec now
      (processInner now { s with pendingProcesses := s.pendingProcesses.eraseIdx 0 }) harr1
  have hu_qo : (processInner now
        { s with pendingProcesses := s.pendingProcesses.eraseIdx 0 }).queueOptions
      = { s.queueOptions with processed := s.queueOptions.processed + 1 } := by rw [q1]
  have hu_pc : (processInner now
        { s with pendingProcesses := s.pendingProcesses.eraseIdx 0 }).processingConcurrent
      = s.processingConcurrent := by rw [q5]
  have hu_q : (processInner now
        { s with pendingProcesses := s.pendingProcesses.eraseIdx 0 }).queue = s.queue := by
    rw [q2]
  have hu_pp : (processInner now
        { s with pendingProcesses := s.pendingProcesses.eraseIdx 0 }).pendingProcesses
      = s.pendingProcesses.eraseIdx 0 := by rw [q6]
  have hRqo : (processCont now (processInner now
        { s with pendingProcesses := s.pendingProcesses.eraseIdx 0 })).queueOptions
      = { s.queueOptions with processed := s.queueOptions.processed + 1 } := by
    rw [c1, hu_qo]
  have hRp : (processCont now (processInner now
        { s with pendingProcesses := s.pendingProcesses.eraseIdx 0 })).queueOptions.processed
      = s.queueOptions.processed + 1 := by rw [hRqo]
  have hRpl : (processCont now (processInner now
        { s with pendingProcesses := s.pendingProcesses.eraseIdx 0 })).queueOptions.processingLimit
      = pl := by
    rw [hRqo]
    exact i6
  have hfo : (processCont now (processInner now
        { s with pendingProcesses := s.pendingProcesses.eraseIdx 0 })).fetchOptions
      = s.fetchOptions := by rw [c2, q3]
  have hRerr : (processCont now (processInner now
        { s with pendingProcesses := s.pendingProcesses.eraseIdx 0 })).err = none := by
    rw [c3, q4]
    exact i1
  have hsum : (processCont now (processInner now
        { s with pendingProcesses := s.pendingProcesses.eraseIdx 0 })).processingConcurrent
      + (processCont now (processInner now
        { s with pendingProcesses := s.pendingProcesses.eraseIdx 0 })).queue.length
      = s.processingConcurrent - 1 + s.queue.length := by
    rw [hu_pc, hu_q] at c10
    exact c10
  have hppe : (processCont now (processInner now
        { s with pendingProcesses := s.pendingProcesses.eraseIdx 0 })).processingConcurrent
      + (s.pendingProcesses.eraseIdx 0).length
      = s.processingConcurrent - 1 + (processCont now (processInner now
        { s with pendingProcesses := s.pendingProcesses.eraseIdx 0 })).pendingProcesses.length := by
    rw [hu_pc, hu_pp] at c11
    exact c11
  have hlen1 : (s.pendingProcesses.eraseIdx 0).length + 1 = s.pendingProcesses.length :=
    List.length_eraseIdx_add_one hlen
  have hpc_ge : 1 ≤ s.processingConcurrent := by
    rw [i8]
    exact hlen
  have hb : (processCont now (processInner now
        { s with pendingProcesses := s.pendingProcesses.eraseIdx 0 })).processingConcurrent
      ≤ pl := by
    have h1 : (processInner now
          { s with pendingProcesses := s.pendingProcesses.eraseIdx 0 }).processingConcurrent - 1
        ≤ (processInner now
          { s with pendingProcesses := s.pendingProcesses.eraseIdx 0 }).queueOptions.processingLimit := by
      rw [hu_pc, hu_qo]
      show s.processingConcurrent - 1 ≤ s.queueOptions.processingLimit
      rw [i6]
      omega
    have h2 := c12 h1
    rw [hu_qo] at h2
    have h3 : ({ s.queueOptions with
        processed := s.queueOptions.processed + 1 } : QueueOptions).processingLimit = pl := i6
    rw [h3] at h2
    exact h2
  have hte : (processCont now (processInner now
        { s with pendingProcesses := s.pendingProcesses.eraseIdx 0 })).queueOptions.processed = N →
      (processCont now (processInner now
        { s with pendingProcesses := s.pendingProcesses.eraseIdx 0 })).timeEnd = some now := by
    intro hN
    rw [hRp] at hN
    have hu_te : (processInner now
        { s with pendingProcesses := s.pendingProcesses.eraseIdx 0 }).timeEnd = some now := by
      rw [q14]
      split
      · rfl
      · rename_i hcon
        exfalso
        apply hcon
        refine Or.inl ⟨?_, ?_⟩
        · show ¬ s.fetchOptions.paged = true
          simp [i4]
        · show optNum s.fetchOptions.total = s.queueOptions.processed + 1
          rw [i3]
          show N = s.queueOptions.processed + 1
          omega
    rcases c13 with h | h
    · rw [h, hu_te]
    · exact h
  have hsat : (processCont now (processInner now
        { s with pendingProcesses := s.pendingProcesses.eraseIdx 0 })).queue = [] ∨
      (processCont now (processInner now
        { s with pendingProcesses := s.pendingProcesses.eraseIdx 0 })).processingConcurrent = pl := by
    rcases c14 with hg | hg | hg | hg
    · left
      have hRt : (processCont now (processInner now
          { s with pendingProcesses := s.pendingProcesses.eraseIdx 0 })).fetchOptions.total
          = some N := by rw [hfo]; exact i3
      simp only [completionGuard, hRt, hRp, jsTruthy, optNum, Bool.and_eq_true,
        beq_iff_eq] at hg
      have hq0 : (processCont now (processInner now
          { s with pendingProcesses := s.pendingProcesses.eraseIdx 0 })).queue.length = 0 := by
        omega
      exact List.length_eq_zero.mp hq0
    · rw [hRerr] at hg
      exact absurd hg (by simp)
    · exact Or.inl hg
    · right
      rw [hRpl] at hg
      omega
  refine ⟨⟨hRerr, c4, by rw [hfo]; exact i3, by rw [hfo]; exact i4, by rw [hfo]; exact i5,
    hRpl, by omega, by omega, hb, hsat, by rw [c7, q10]; exact i11, by rw [c6, q7]; exact i12,
    by rw [c5, q8]; exact i13, by rw [c9, q13]; exact i14, by rw [c8, q12]; exact i15, hte⟩,
    hRp⟩

theorem arrInv_init (items : List Nat) (pl now : Nat) (hne : items ≠ []) :
    ArrInv now pl items.length
      (tryProcess now (arrayInit items {} { processingLimit := pl } now)) := by
  have hN : 0 < items.length := List.length_pos.mpr hne
  obtain ⟨p1, p2, p3, p4, p5, p6, p7, p8, p9, p10, p11, p12, p13, p14⟩ :=
    tryProcess_pres now (arrayInit items {} { processingLimit := pl } now)
  have hh := tryProcess_halts now (arrayInit items {} { processingLimit := pl } now)
  have b1 : (arrayInit items {} { processingLimit := pl } now).processingConcurrent = 0 := rfl
  have b2 : (arrayInit items {} { processingLimit := pl } now).queue = items := rfl
  have b3 : (arrayInit items {} { processingLimit := pl } now).queueOptions.processed = 0 := rfl
  have b4 : (arrayInit items {} { processingLimit := pl } now).pendingProcesses.length = 0 := rfl
  have b5 : (arrayInit items {} { processingLimit := pl } now).queueOptions.processingLimit
      = pl := rfl
  have b6 : (arrayInit items {} { processingLimit := pl } now).fetchOptions.total
      = some items.length := rfl
  have hTp : (tryProcess now
      (arrayInit items {} { processingLimit := pl } now)).queueOptions.processed = 0 := by
    rw [p1]
    exact b3
  have hTt : (tryProcess now
      (arrayInit items {} { processingLimit := pl } now)).fetchOptions.total
      = some items.length := by
    rw [p2]
    exact b6
  have hTpl : (tryProcess now
      (arrayInit items {} { processingLimit := pl } now)).queueOptions.processingLimit = pl := by
    rw [p1]
    exact b5
  have hbq : (arrayInit items {} { processingLimit := pl } now).queue.length = items.length := by
    rw [b2]
  have hTpc : (tryProcess now
      (arrayInit items {} { processingLimit := pl } now)).processingConcurrent ≤ pl := by
    have h := p13 (by rw [b1, b5]; omega)
    rw [b5] at h
    exact h
  have hsat : (tryProcess now (arrayInit items {} { processingLimit := pl } now)).queue = [] ∨
      (tryProcess now
        (arrayInit items {} { processingLimit := pl } now)).processingConcurrent = pl := by
    rcases hh with hg | hg | hg | hg
    · exfalso
      simp only [completionGuard, hTt, hTp, jsTruthy, optNum, Bool.and_eq_true,
        beq_iff_eq] at hg
      omega
    · exfalso
      rw [p3] at hg
      have : (arrayInit items {} { processingLimit := pl } now).err = none := rfl
      rw [this] at hg
      simp at hg
    · exact Or.inl hg
    · right
      rw [hTpl] at hg
      omega
  refine ⟨by rw [p3]; rfl, by rw [p4]; rfl, hTt, by rw [p2]; rfl, by rw [p2]; rfl, hTpl,
    ?_, ?_, hTpc, hsat,
    by rw [p7]; rfl, by rw [p6]; rfl, by rw [p5]; rfl, by rw [p10]; rfl, by rw [p9]; rfl, ?_⟩
  · rw [b1, hbq] at p11
    omega
  · rw [b1, b4] at p12
    omega
  · intro h
    rw [hTp] at h
    omega

theorem arrInv_drain (now pl N : Nat) (hpl : 1 ≤ pl) : ∀ (fuel : Nat) (s : St),
    ArrInv now pl N s → N ≤ s.queueOptions.processed + fuel →
    ArrInv now pl N (drainArr now fuel s)
      ∧ (drainArr now fuel s).queueOptions.processed = N
  | 0, s => by
    intro inv hf
    refine ⟨inv, ?_⟩
    show s.queueOptions.processed = N
    obtain ⟨-, -, -, -, -, -, i7, -, -, -, -, -, -, -, -, -⟩ := inv
    omega
  | fuel + 1, s => by
    intro inv hf
    by_cases hp : s.pendingProcesses.isEmpty
    · have hdef : drainArr now (fuel + 1) s = s := by
        simp only [drainArr]
        rw [if_pos hp]
      rw [hdef]
      obtain ⟨i1, i2, i3, i4, i5, i6, i7, i8, i9, i10, i11, i12, i13, i14, i15, i16⟩ := inv
      have hnil : s.pendingProcesses = [] := by simpa [List.isEmpty_iff] using hp
      have hpc0 : s.processingConcurrent = 0 := by
        rw [i8, hnil]
        rfl
      have hq : s.queue = [] := by
        rcases i10 with h | h
        · exact h
        · exfalso
          omega
      refine ⟨⟨i1, i2, i3, i4, i5, i6, i7, i8, i9, i10, i11, i12, i13, i14, i15, i16⟩, ?_⟩
      have hql : s.queue.length = 0 := by rw [hq]; rfl
      omega
    · have hne2 : s.pendingProcesses ≠ [] := by simpa [List.isEmpty_iff] using hp
      have hdef : drainArr now (fuel + 1) s
          = drainArr now fuel (processOpComplete now 0 (.ok ()) s) := by
        simp only [drainArr]
        rw [if_neg hp]
      rw [hdef]
      obtain ⟨inv2, hinc⟩ := arrInv_step inv hne2
      exact arrInv_drain now pl N hpl fuel _ inv2 (by rw [hinc]; omega)

/-- Claim C9: for every non-empty array-mode input of `N` pre-supplied
items (with default fetch options, `processingLimit = pl ≥ 1`, and every
process invocation succeeding), `total` is set to `N` immediately, the
whole sequence becomes the initial backlog, the run never invokes the
internal `fetch` wrapper (zero fetch calls, no in-flight fetches, no
fetch concurrency), and draining the run to completion ends with
`processedCount = N`, no error, `_timeEnd` assigned, and the completion
check settling the run successfully with
`{ status: "done", fetched: N, processed: N, time: 0 }`. -/
theorem C9_array_mode (items : List Nat) (pl now now2 : Nat)
    (hne : items ≠ []) (hpl : 1 ≤ pl) :
    (arrayInit items {} { processingLimit := pl } now).queue = items ∧
    (arrayInit items {} { processingLimit := pl } now).fetchOptions.total
      = some items.length ∧
    fetchAndProcess (.array items) {} { processingLimit := pl } now
      = .running (tryProcess now (arrayInit items {} { processingLimit := pl } now)) ∧
    (drainArr now items.length (fetchAndProcess (.array items) {}
        { processingLimit := pl } now).state).queueOptions.processed = items.length ∧
    (drainArr now items.length (fetchAndProcess (.array items) {}
        { processingLimit := pl } now).state).fetchCalls = 0 ∧
    (drainArr now items.length (fetchAndProcess (.array items) {}
        { processingLimit := pl } now).state).pendingFetches = [] ∧
    (drainArr now items.length (fetchAndProcess (.array items) {}
        { processingLimit := pl } now).state).requestsConcurrent = 0 ∧
    (drainArr now items.length (fetchAndProcess (.array items) {}
        { processingLimit := pl } now).state).err = none ∧
    (completeCheck now2 (drainArr now items.length (fetchAndProcess (.array items) {}
        { processingLimit := pl } now).state)).1
      = some (.done (some items.length) items.length 0) := by
  have hstate : (fetchAndProcess (.array items) {} { processingLimit := pl } now).state
      = tryProcess now (arrayInit items {} { processingLimit := pl } now) := by
    cases items with
    | nil => exact absurd rfl hne
    | cons i rest => rfl
  have hfp : fetchAndProcess (.array items) {} { processingLimit := pl } now
      = .running (tryProcess now (arrayInit items {} { processingLimit := pl } now)) := by
    cases items with
    | nil => exact absurd rfl hne
    | cons i rest => rfl
  have hinit := arrInv_init items pl now hne
  have hstart_p : (tryProcess now
      (arrayInit items {} { processingLimit := pl } now)).queueOptions.processed = 0 := by
    rw [(tryProcess_pres now (arrayInit items {} { processingLimit := pl } now)).1]
    rfl
  obtain ⟨invF, hPF⟩ := arrInv_drain now pl items.length hpl items.length
    (tryProcess now (arrayInit items {} { processingLimit := pl } now)) hinit
    (by rw [hstart_p]; omega)
  obtain ⟨f1, f2, f3, f4, f5, f6, f7, f8, f9, f10, f11, f12, f13, f14, f15, f16⟩ := invF
  have hte := f16 hPF
  refine ⟨rfl, rfl, hfp, ?_, ?_, ?_, ?_, ?_, ?_⟩
  · rw [hstate]
    exact hPF
  · rw [hstate]
    exact f11
  · rw [hstate]
    exact f12
  · rw [hstate]
    exact f13
  · rw [hstate]
    exact f1
  · rw [hstate]
    unfold completeCheck
    rw [if_neg (by simp [f14])]
    simp only [f1, hte]
    rw [f3, hPF, f15]
    simp

/-- Witness for C9 on the three-item array with `processingLimit = 1`. -/
theorem C9_array_mode_witness :
    (arrayInit [5, 6, 7] {} { processingLimit := 1 } 0).queue = [5, 6, 7] ∧
    (arrayInit [5, 6, 7] {} { processingLimit := 1 } 0).fetchOptions.total = some 3 ∧
    fetchAndProcess (.array [5, 6, 7]) {} { processingLimit := 1 } 0
      = .running (tryProcess 0 (arrayInit [5, 6, 7] {} { processingLimit := 1 } 0)) ∧
    (drainArr 0 3 (fetchAndProcess (.array [5, 6, 7]) {}
        { processingLimit := 1 } 0).state).queueOptions.processed = 3 ∧
    (drainArr 0 3 (fetchAndProcess (.array [5, 6, 7]) {}
        { processingLimit := 1 } 0).state).fetchCalls = 0 ∧
    (drainArr 0 3 (fetchAndProcess (.array [5, 6, 7]) {}
        { processingLimit := 1 } 0).state).pendingFetches = [] ∧
    (drainArr 0 3 (fetchAndProcess (.array [5, 6, 7]) {}
        { processingLimit := 1 } 0).state).requestsConcurrent = 0 ∧
    (drainArr 0 3 (fetchAndProcess (.array [5, 6, 7]) {}
        { processingLimit := 1 } 0).state).err = none ∧
    (completeCheck 9 (drainArr 0 3 (fetchAndProcess (.array [5, 6, 7]) {}
        { processingLimit := 1 } 0).state)).1 = some (.done (some 3) 3 0) :=
  C9_array_mode [5, 6, 7] 1 0 9 (by decide) (by decide)

end FactoryQueue
